import Mathlib

/-!
Verification of the LEDPanel main-node synchronization engine.

Shallow embedding of `src/main-node/src` (fetcher.py, db_manager.py,
exceptions.py, main.py).  Timestamps are modelled as integers (seconds),
the wall clock (`datetime.now()` / `datetime.utcnow()`) is passed
explicitly, database tables are lists of rows, and float delays are
modelled as rationals.  Each definition mirrors one Python function of
the source; names follow the source.
-/

namespace LEDPanel

/-! ### Configuration (config.py, default field values) -/

def LOOKAHEAD_HOURS : Int := 2

def LOOKBEHIND_HOURS : Int := 0

def FETCH_INTERVAL_SECONDS : Int := 60

def PLANNED_FETCH_INTERVAL_SECONDS : Int := 3600

def RETRY_ATTEMPTS : Nat := 3

/-- exceptions.py: `ERROR_ESCALATION_THRESHOLD = 5`. -/
def ERROR_ESCALATION_THRESHOLD : Nat := 5

/-! ### parse_db_time (fetcher.py, lines 29-52)

`datetime` values are modelled structurally; `datetime.now()` is an
explicit argument.  Python `int(...)` on the fixed-width digit substrings
is modelled as digit-string parsing that errors on non-digit input
(mirroring `ValueError`); the `datetime(...)` constructor validates its
ranges (mirroring `ValueError` on an invalid month/day/hour/minute). -/

structure PyDateTime where
  year : Nat
  month : Nat
  day : Nat
  hour : Nat
  minute : Nat
deriving DecidableEq, Repr

/-- Python `int(s)` restricted to the digit substrings that
`parse_db_time` feeds it: all-digit strings parse, anything else raises
`ValueError` (modelled as `Except.error`). -/
def pyInt (cs : List Char) : Except String Nat :=
  if cs ≠ [] ∧ cs.all (fun c => c.isDigit)
  then Except.ok (cs.foldl (fun acc c => acc * 10 + (c.toNat - 48)) 0)
  else Except.error "ValueError: invalid literal for int"

def isLeapYear (y : Nat) : Bool :=
  y % 4 = 0 && (y % 100 ≠ 0 || y % 400 = 0)

def daysInMonth (y m : Nat) : Nat :=
  if m = 2 then (if isLeapYear y then 29 else 28)
  else if m = 4 ∨ m = 6 ∨ m = 9 ∨ m = 11 then 30
  else 31

/-- Python `datetime(year, month, day, hour, minute)`: validates ranges,
raising `ValueError` (modelled as `Except.error`) when out of range. -/
def mkDatetime (year month day hour minute : Nat) : Except String PyDateTime :=
  if 1 ≤ month ∧ month ≤ 12 ∧ 1 ≤ day ∧ day ≤ daysInMonth year month ∧
     hour < 24 ∧ minute < 60
  then Except.ok ⟨year, month, day, hour, minute⟩
  else Except.error "ValueError: datetime out of range"

/-- fetcher.py `parse_db_time(time_str)`: parses Deutsche Bahn
`YYMMddHHmm` strings; an empty or shorter-than-10-character string
returns `datetime.now()` (the explicit `now` argument). -/
def parse_db_time (time_str : String) (now : PyDateTime) : Except String PyDateTime :=
  if time_str = "" ∨ time_str.length < 10 then Except.ok now
  else
    let cs := time_str.toList
    do
      let yy ← pyInt (cs.take 2)
      let mm ← pyInt ((cs.drop 2).take 2)
      let dd ← pyInt ((cs.drop 4).take 2)
      let hh ← pyInt ((cs.drop 6).take 2)
      let minute ← pyInt ((cs.drop 8).take 2)
      let year := if yy < 50 then 2000 + yy else 1900 + yy
      mkDatetime year mm dd hh minute

/-! ### Data models (models.py) and database rows (db_manager.py)

The pydantic `PlannedEvent` / `ChangedEvent` models carry `datetime`
fields; here timestamps are integers.  The pydantic models have no
`planned_line` / `planned_destination` (resp. `changed_line` /
`changed_destination`) attributes, so the `getattr(event, ..., None)`
reads in db_manager.py always yield `None`; the row constructors below
reflect that. -/

structure PlannedEvent where
  stop_id : String
  event_type : String
  planned_time : Int
  planned_platform : Option String
  planned_path : Option String
  wings : Option String
  category : Option String
  train_number : Option String
  operator : Option String
  hidden : Option Bool
deriving DecidableEq, Repr

structure ChangedEvent where
  stop_id : String
  event_type : String
  changed_time : Option Int
  changed_platform : Option String
  changed_path : Option String
  changed_status : Option String
  fetched_at : Option Int
  wings : Option String
  category : Option String
  train_number : Option String
  operator : Option String
  hidden : Option Bool
deriving DecidableEq, Repr

/-- A row of the `planned_events` table (autogenerated `id` and
`created_at` columns omitted). -/
structure DBPlannedEvent where
  stop_id : String
  eva : Int
  event_type : String
  planned_time : Int
  planned_platform : Option String
  planned_path : Option String
  wings : Option String
  planned_line : Option String
  planned_destination : Option String
  category : Option String
  train_number : Option String
  operator : Option String
  hidden : Option Bool
deriving DecidableEq, Repr

/-- A row of the `changed_events` table (autogenerated `id` and
`created_at` columns omitted). -/
structure DBChangedEvent where
  stop_id : String
  eva : Int
  event_type : String
  changed_time : Option Int
  changed_platform : Option String
  changed_status : Option String
  changed_path : Option String
  changed_line : Option String
  changed_destination : Option String
  category : Option String
  train_number : Option String
  operator : Option String
  hidden : Option Bool
  wings : Option String
  fetched_at : Int
deriving DecidableEq, Repr

/-! ### DatabaseManager.save_planned_events (db_manager.py, lines 273-341)

The loop body: select the existing row with the event's `stop_id`
(first match), update its fields only when `event.planned_time >
existing.planned_time`, otherwise insert a new row.  A table is a list
of rows; `session.execute(select...).scalars().first()` is first-match
lookup, the in-place ORM update replaces the first matching row, and
`session.add` appends. -/

/-- Field update applied to an existing row when the incoming planned
time is strictly more recent (db_manager.py lines 307-317; `eva` and
`event_type` are not touched). -/
def updatePlannedRow (r : DBPlannedEvent) (e : PlannedEvent) : DBPlannedEvent :=
  { r with
    planned_time := e.planned_time
    planned_platform := e.planned_platform
    planned_path := e.planned_path
    wings := e.wings
    planned_line := none
    planned_destination := none
    category := e.category
    train_number := e.train_number
    operator := e.operator
    hidden := e.hidden }

/-- Fresh row inserted when no row with the event's `stop_id` exists
(db_manager.py lines 320-335). -/
def newPlannedRow (eva : Int) (e : PlannedEvent) : DBPlannedEvent :=
  { stop_id := e.stop_id
    eva := eva
    event_type := e.event_type
    planned_time := e.planned_time
    planned_platform := e.planned_platform
    planned_path := e.planned_path
    wings := e.wings
    planned_line := none
    planned_destination := none
    category := e.category
    train_number := e.train_number
    operator := e.operator
    hidden := e.hidden }

/-- One iteration of the save_planned_events loop on the table: update
the first row whose `stop_id` matches (only if strictly more recent),
else append a new row. -/
def upsertPlanned (eva : Int) (e : PlannedEvent) : List DBPlannedEvent → List DBPlannedEvent
  | [] => [newPlannedRow eva e]
  | r :: rs =>
    if r.stop_id = e.stop_id then
      (if r.planned_time < e.planned_time then updatePlannedRow r e else r) :: rs
    else
      r :: upsertPlanned eva e rs

/-- db_manager.py `save_planned_events(eva, events)` acting on a table;
returns the new table and the function's return value (`0` for an empty
list, otherwise `len(events)`). -/
def save_planned_events (eva : Int) (events : List PlannedEvent)
    (table : List DBPlannedEvent) : List DBPlannedEvent × Nat :=
  if events = [] then (table, 0)
  else (events.foldl (fun t e => upsertPlanned eva e t) table, events.length)

/-! ### DatabaseManager.save_changed_events (db_manager.py, lines 343-391)

Every event is unconditionally inserted ("Always insert (don't
deduplicate for real-time data)"). -/

/-- Row built for every incoming changed event (db_manager.py lines
368-384); `fetched_at` falls back to `datetime.utcnow()` (the explicit
`now`). -/
def newChangedRow (now eva : Int) (e : ChangedEvent) : DBChangedEvent :=
  { stop_id := e.stop_id
    eva := eva
    event_type := e.event_type
    changed_time := e.changed_time
    changed_platform := e.changed_platform
    changed_status := e.changed_status
    changed_path := e.changed_path
    changed_line := none
    changed_destination := none
    category := e.category
    train_number := e.train_number
    operator := e.operator
    hidden := e.hidden
    wings := e.wings
    fetched_at := e.fetched_at.getD now }

/-- db_manager.py `save_changed_events(eva, events)` acting on a table;
always appends, returns the new table and the return value. -/
def save_changed_events (now eva : Int) (events : List ChangedEvent)
    (table : List DBChangedEvent) : List DBChangedEvent × Nat :=
  if events = [] then (table, 0)
  else (table ++ events.map (newChangedRow now eva), events.length)

/-- First-match lookup of a planned row by `stop_id`
(`select(...).where(stop_id == ...)` + `.first()`). -/
def findPlanned (sid : String) (t : List DBPlannedEvent) : Option DBPlannedEvent :=
  t.find? (fun r => r.stop_id == sid)

/-- Stored planned time for a `stop_id`, if any row exists. -/
def storedPlannedTime (sid : String) (t : List DBPlannedEvent) : Option Int :=
  (findPlanned sid t).map (fun r => r.planned_time)

/-- Number of stored changed-event rows for one `stop_id` + event type
(one "observation" in the spec's sense). -/
def countChangedObservations (sid etype : String) (t : List DBChangedEvent) : Nat :=
  (t.filter (fun r => r.stop_id == sid && r.event_type == etype)).length

/-! ### retry_with_backoff (exceptions.py, lines 56-169)

The wrapped operation is modelled as an oracle `outcomes : Nat → Except
String α` giving the result of its i-th invocation.  Float delays are
modelled as rationals; `time.sleep` / `asyncio.sleep` arguments are
recorded in order in `sleeps`.  `counter` is the final value of
`consecutive_errors[operation_name]` (`track_error` increments it,
`reset_error` zeroes it), starting from an arbitrary prior value. -/

inductive RetryOutcome (α : Type) where
  | success (a : α)
  | exhausted (lastError : String)
  | noAttempt
deriving DecidableEq, Repr

structure RetryTrace (α : Type) where
  outcome : RetryOutcome α
  calls : Nat
  counter : Nat
  sleeps : List ℚ
deriving DecidableEq, Repr

/-- `max_retries = max_attempts or settings.RETRY_ATTEMPTS`: Python `or`
falls back to the default for `None` and for a falsy `0`. -/
def resolveMaxAttempts : Option Nat → Nat
  | none => RETRY_ATTEMPTS
  | some n => if n = 0 then RETRY_ATTEMPTS else n

/-- The `while attempt < max_retries` loop of `_sync_wrapper` /
`_async_wrapper` (identical control flow).  `fuel = max_retries -
attempt`; `callIdx` counts invocations made so far; on failure the
attempt count and the error counter are incremented, and if attempts
remain the loop sleeps `min(delay, max_delay)` and multiplies `delay`
by the backoff factor. -/
def retryAux {α : Type} (outcomes : Nat → Except String α) (maxDelay factor : ℚ) :
    Nat → Nat → ℚ → Nat → List ℚ → RetryTrace α
  | 0, callIdx, _, counter, sleeps => ⟨RetryOutcome.noAttempt, callIdx, counter, sleeps.reverse⟩
  | fuel + 1, callIdx, delay, counter, sleeps =>
    match outcomes callIdx with
    | Except.ok a => ⟨RetryOutcome.success a, callIdx + 1, 0, sleeps.reverse⟩
    | Except.error e =>
      if fuel = 0 then
        ⟨RetryOutcome.exhausted e, callIdx + 1, counter + 1, sleeps.reverse⟩
      else
        retryAux outcomes maxDelay factor fuel (callIdx + 1) (delay * factor) (counter + 1)
          (min delay maxDelay :: sleeps)

/-- exceptions.py `retry_with_backoff(max_attempts, base_delay,
max_delay, backoff_factor, operation_name)` applied to an operation with
behaviour `outcomes`, with the named consecutive-error counter starting
at `counter₀`. -/
def retry_with_backoff {α : Type} (outcomes : Nat → Except String α)
    (maxAttempts : Option Nat) (baseDelay maxDelay factor : ℚ) (counter₀ : Nat) :
    RetryTrace α :=
  retryAux outcomes maxDelay factor (resolveMaxAttempts maxAttempts) 0 baseDelay counter₀ []

/-! ### StationMonitor (main.py, lines 38-174)

State: `last_planned_fetch`, `last_changes_fetch`,
`escalation_backoff_until` (all `None` initially).  `datetime.now()` is
the explicit `now` argument (the few clock reads inside one call are
collapsed to one instant).  Fetch + save success/failure is an explicit
boolean (a `False` models a caught FetchError / DatabaseError /
RetryExhausted). -/

structure MonitorState where
  last_planned_fetch : Option Int
  last_changes_fetch : Option Int
  escalation_backoff_until : Option Int
deriving DecidableEq, Repr

/-- main.py lines 47-51. -/
def StationMonitor.should_fetch_planned_events (now : Int) (s : MonitorState) : Bool :=
  match s.last_planned_fetch with
  | none => true
  | some t => decide (PLANNED_FETCH_INTERVAL_SECONDS ≤ now - t)

/-- main.py lines 53-57. -/
def StationMonitor.should_fetch_changes (now : Int) (s : MonitorState) : Bool :=
  match s.last_changes_fetch with
  | none => true
  | some t => decide (FETCH_INTERVAL_SECONDS ≤ now - t)

/-- main.py lines 59-66; clears an expired backoff as a side effect. -/
def StationMonitor.should_backoff (now : Int) (s : MonitorState) : Bool × MonitorState :=
  match s.escalation_backoff_until with
  | none => (false, s)
  | some u =>
    if now < u then (true, s)
    else (false, { s with escalation_backoff_until := none })

/-- main.py lines 68-71: one-minute backoff. -/
def StationMonitor.trigger_escalation_backoff (now : Int) (s : MonitorState) : MonitorState :=
  { s with escalation_backoff_until := some (now + 60) }

/-- main.py lines 119-136: skips when not due (returning True), else
fetches and saves; on success stamps `last_changes_fetch = now`. -/
def StationMonitor.fetch_recent_changes (now : Int) (fetchOk : Bool) (s : MonitorState) :
    Bool × MonitorState :=
  if !(StationMonitor.should_fetch_changes now s) then (true, s)
  else if fetchOk then (true, { s with last_changes_fetch := some now })
  else (false, s)

/-- main.py lines 138-159: skips when not due (returning True, no
window requested), else requests the feed window `[now, now +
(LOOKAHEAD_HOURS + 1) hours]`; on success stamps `last_planned_fetch =
now`.  The third component is the requested window, `none` when the
fetch was skipped. -/
def StationMonitor.fetch_planned_events (now : Int) (fetchOk : Bool) (s : MonitorState) :
    Bool × MonitorState × Option (Int × Int) :=
  if !(StationMonitor.should_fetch_planned_events now s) then (true, s, none)
  else
    let window_start := now
    let window_end := now + (LOOKAHEAD_HOURS + 1) * 3600
    if fetchOk then
      (true, { s with last_planned_fetch := some now }, some (window_start, window_end))
    else (false, s, some (window_start, window_end))

/-- main.py lines 89-91: the wider window used by
`StationMonitor.initialize` on first run. -/
def StationMonitor.initializeWindow (now : Int) : Int × Int :=
  (now - LOOKBEHIND_HOURS * 3600, now + LOOKAHEAD_HOURS * 3600)

/-- main.py lines 161-174: one monitoring cycle. -/
def StationMonitor.monitor_cycle (now : Int) (changesOk plannedOk : Bool)
    (s : MonitorState) : MonitorState :=
  let b := StationMonitor.should_backoff now s
  if b.1 then b.2
  else
    let c := StationMonitor.fetch_recent_changes now changesOk b.2
    let p := StationMonitor.fetch_planned_events now plannedOk c.2
    if !(c.1 && p.1) then StationMonitor.trigger_escalation_backoff now p.2.1
    else p.2.1

/-! ### ApplicationOrchestrator.initialize (main.py, lines 184-216)

Per-station initialization success is an oracle `initOk`; `dbOk` models
`db.check_connection()` succeeding (an exception or `False` both lead to
the early `return False`). -/

structure OrchInitResult where
  success : Bool
  monitors : List Int
  attempted : List Int
  all_ok : Bool
deriving DecidableEq, Repr

/-- The `for eva in settings.STATIONS` loop: registers a monitor for
every station, runs its initialize, and only records failures in
`all_ok`.  Returns (registered monitor keys, stations whose initialize
ran, all_ok). -/
def ApplicationOrchestrator.initStations (initOk : Int → Bool)
    (stations : List Int) : List Int × List Int × Bool :=
  stations.foldl
    (fun acc eva => (acc.1 ++ [eva], acc.2.1 ++ [eva], acc.2.2 && initOk eva))
    ([], [], true)

/-- main.py `ApplicationOrchestrator.initialize`: aborts only on a
database connection failure; station failures are logged and the method
still returns True. -/
def ApplicationOrchestrator.initializeAll (dbOk : Bool) (stations : List Int)
    (initOk : Int → Bool) : OrchInitResult :=
  if !dbOk then ⟨false, [], [], true⟩
  else
    let z := ApplicationOrchestrator.initStations initOk stations
    ⟨true, z.1, z.2.1, z.2.2⟩

/-! ### DataFetcher.fetch_planned_events, parse path (fetcher.py, lines 123-220)

One hour-slice XML response is a list of `<s>` stops, each with optional
`<dp>` / `<ar>` elements.  A missing `pt` attribute skips the event; a
present `pt` goes through `parse_db_time`, whose `ValueError` escapes
the per-hour `except httpx.HTTPStatusError` handler and reaches the
outer `except Exception`, which raises `FetchError` for the whole
fetch. -/

structure EventAttrs where
  pt : Option String
  pp : Option String
  ppth : Option String
  wings : Option String
deriving DecidableEq, Repr

structure TimetableStop where
  id : String
  dp : Option EventAttrs
  ar : Option EventAttrs
  ppth : Option String
  wings : Option String
deriving DecidableEq, Repr

/-- A parsed planned event as built in fetcher.py (datetime-valued). -/
structure ParsedPlannedEvent where
  stop_id : String
  event_type : String
  planned_time : PyDateTime
  planned_platform : Option String
  planned_path : Option String
  wings : Option String
deriving DecidableEq, Repr

/-- Python `a or b` on optional attribute values (attribute values from
the feed are non-empty strings, so only `None` is falsy here). -/
def pyOr (a b : Option String) : Option String :=
  match a with
  | some s => some s
  | none => b

/-- The per-stop event extraction of fetcher.py lines 170-204. -/
def DataFetcher.parseStopEvents (now : PyDateTime) (stop : TimetableStop) :
    Except String (List ParsedPlannedEvent) := do
  let dpEvents ←
    match stop.dp with
    | none => pure ([] : List ParsedPlannedEvent)
    | some d =>
      match d.pt with
      | none => pure []
      | some pt => do
        let t ← parse_db_time pt now
        pure [⟨stop.id, "dep", t, d.pp, pyOr d.ppth stop.ppth, pyOr d.wings stop.wings⟩]
  let arEvents ←
    match stop.ar with
    | none => pure ([] : List ParsedPlannedEvent)
    | some a =>
      match a.pt with
      | none => pure []
      | some pt => do
        let t ← parse_db_time pt now
        pure [⟨stop.id, "arr", t, a.pp, pyOr a.ppth stop.ppth, pyOr a.wings stop.wings⟩]
  pure (dpEvents ++ arEvents)

/-- The stop loop accumulating events for one hour slice. -/
def DataFetcher.parseStops (now : PyDateTime) :
    List TimetableStop → Except String (List ParsedPlannedEvent)
  | [] => Except.ok []
  | stop :: rest => do
    let es ← DataFetcher.parseStopEvents now stop
    let more ← DataFetcher.parseStops now rest
    pure (es ++ more)

/-- fetcher.py `fetch_planned_events` merge path on one decoded hour
slice: any exception from parsing is re-raised as FetchError. -/
def DataFetcher.fetch_planned_events (now : PyDateTime) (stops : List TimetableStop) :
    Except String (List ParsedPlannedEvent) :=
  match DataFetcher.parseStops now stops with
  | Except.ok es => Except.ok es
  | Except.error e => Except.error ("FetchError: Failed to fetch planned events: " ++ e)

end LEDPanel

namespace LEDPanel

/-- C9: parse_db_time on any input shorter than 10 characters (including
the empty string) does not signal an error and returns the current
wall-clock time `now` as the parsed timestamp. -/
theorem parse_db_time_short_returns_now (s : String) (now : PyDateTime)
    (h : s.length < 10) :
    parse_db_time s now = Except.ok now := by
  unfold parse_db_time
  rw [if_pos (Or.inr h)]

/-- Witness for C9 at the empty string. -/
theorem parse_db_time_short_returns_now_witness :
    ("".length < 10) ∧ parse_db_time "" ⟨2026, 10, 12, 0, 0⟩ = Except.ok ⟨2026, 10, 12, 0, 0⟩ :=
  ⟨by decide, parse_db_time_short_returns_now "" ⟨2026, 10, 12, 0, 0⟩ (by decide)⟩

/-! ### Lemmas about upsertPlanned / save_planned_events -/

/-- If the stored row for the event's stop_id is already at least as
recent, the upsert leaves the table unchanged. -/
theorem upsertPlanned_noop (eva : Int) (e : PlannedEvent) :
    ∀ (t : List DBPlannedEvent) (r : DBPlannedEvent),
      findPlanned e.stop_id t = some r → ¬ r.planned_time < e.planned_time →
      upsertPlanned eva e t = t := by
  intro t
  induction t with
  | nil => intro r h; simp [findPlanned] at h
  | cons a l ih =>
    intro r h hle
    by_cases ha : a.stop_id = e.stop_id
    · simp [findPlanned, List.find?, ha] at h
      subst h
      simp [upsertPlanned, ha, hle]
    · have ha' : (a.stop_id == e.stop_id) = false := by
        simp [ha]
      simp [findPlanned, List.find?, ha'] at h
      simp [upsertPlanned, ha]
      exact ih r h hle

/-- After an upsert, a row for the event's stop_id exists and its stored
time is at least the event's time. -/
theorem upsertPlanned_time_ge (eva : Int) (e : PlannedEvent) :
    ∀ t : List DBPlannedEvent,
      ∃ r, findPlanned e.stop_id (upsertPlanned eva e t) = some r ∧
        e.planned_time ≤ r.planned_time := by
  intro t
  induction t with
  | nil =>
    refine ⟨newPlannedRow eva e, ?_, le_refl _⟩
    simp [upsertPlanned, findPlanned, List.find?, newPlannedRow]
  | cons a l ih =>
    by_cases ha : a.stop_id = e.stop_id
    · by_cases hlt : a.planned_time < e.planned_time
      · refine ⟨updatePlannedRow a e, ?_, le_refl _⟩
        simp [upsertPlanned, ha, hlt, findPlanned, List.find?, updatePlannedRow]
      · refine ⟨a, ?_, le_of_not_lt hlt⟩
        simp [upsertPlanned, ha, hlt, findPlanned, List.find?]
    · obtain ⟨r, hr, hge⟩ := ih
      refine ⟨r, ?_, hge⟩
      have ha' : (a.stop_id == e.stop_id) = false := by
        simp [ha]
      simp [upsertPlanned, ha, findPlanned, List.find?, ha']
      simpa [findPlanned] using hr

/-- An upsert never decreases the stored time of any stop_id already in
the table. -/
theorem upsertPlanned_preserves_ge (eva : Int) (f : PlannedEvent) (sid : String) (c : Int) :
    ∀ (t : List DBPlannedEvent) (r : DBPlannedEvent),
      findPlanned sid t = some r → c ≤ r.planned_time →
      ∃ r', findPlanned sid (upsertPlanned eva f t) = some r' ∧ c ≤ r'.planned_time := by
  intro t
  induction t with
  | nil => intro r h; simp [findPlanned] at h
  | cons a l ih =>
    intro r h hc
    by_cases ha : a.stop_id = sid
    · have ha' : (a.stop_id == sid) = true := by simp [ha]
      simp [findPlanned, List.find?, ha'] at h
      subst h
      by_cases haf : a.stop_id = f.stop_id
      · have hfs : (f.stop_id == sid) = true := by
          rw [haf] at ha; simp [ha]
        by_cases hlt : a.planned_time < f.planned_time
        · refine ⟨updatePlannedRow a f, ?_, ?_⟩
          · simp [upsertPlanned, haf, hlt, findPlanned, List.find?, updatePlannedRow, hfs]
          · exact le_of_lt (lt_of_le_of_lt hc hlt)
        · refine ⟨a, ?_, hc⟩
          simp [upsertPlanned, haf, hlt, findPlanned, List.find?, ha', hfs]
      · refine ⟨a, ?_, hc⟩
        simp [upsertPlanned, haf, findPlanned, List.find?, ha']
    · have ha' : (a.stop_id == sid) = false := by simp [ha]
      simp [findPlanned, List.find?, ha'] at h
      by_cases haf : a.stop_id = f.stop_id
      · have hfs : (f.stop_id == sid) = false := by
          rw [haf] at ha; simp [ha]
        by_cases hlt : a.planned_time < f.planned_time
        · refine ⟨r, ?_, hc⟩
          simp [upsertPlanned, haf, hlt, findPlanned, List.find?, updatePlannedRow, hfs]
          simpa [findPlanned] using h
        · refine ⟨r, ?_, hc⟩
          simp [upsertPlanned, haf, hlt, findPlanned, List.find?, ha', hfs]
          simpa [findPlanned] using h
      · obtain ⟨r', hr', hc'⟩ := ih r h hc
        refine ⟨r', ?_, hc'⟩
        simp [upsertPlanned, haf, findPlanned, List.find?, ha']
        simpa [findPlanned] using hr'

/-- The fold underlying save_planned_events never decreases a stored
time. -/
theorem savePlannedFold_preserves_ge (eva : Int) (sid : String) (c : Int) :
    ∀ (es : List PlannedEvent) (t : List DBPlannedEvent) (r : DBPlannedEvent),
      findPlanned sid t = some r → c ≤ r.planned_time →
      ∃ r', findPlanned sid (es.foldl (fun t e => upsertPlanned eva e t) t) = some r' ∧
        c ≤ r'.planned_time := by
  intro es
  induction es with
  | nil => intro t r h hc; exact ⟨r, h, hc⟩
  | cons f rest ih =>
    intro t r h hc
    obtain ⟨r', hr', hc'⟩ := upsertPlanned_preserves_ge eva f sid c t r h hc
    simpa using ih (upsertPlanned eva f t) r' hr' hc'

/-- After the save_planned_events fold, every event of the input list is
dominated by the stored row for its stop_id. -/
theorem savePlannedFold_all_ge (eva : Int) :
    ∀ (es : List PlannedEvent) (t : List DBPlannedEvent) (e : PlannedEvent), e ∈ es →
      ∃ r, findPlanned e.stop_id (es.foldl (fun t e => upsertPlanned eva e t) t) = some r ∧
        e.planned_time ≤ r.planned_time := by
  intro es
  induction es with
  | nil => intro t e h; cases h
  | cons f rest ih =>
    intro t e h
    rcases List.mem_cons.mp h with he | he
    · subst he
      obtain ⟨r, hr, hge⟩ := upsertPlanned_time_ge eva e t
      simpa using savePlannedFold_preserves_ge eva e.stop_id e.planned_time rest
        (upsertPlanned eva e t) r hr hge
    · simpa using ih (upsertPlanned eva f t) e he

/-- If every event of the list is already dominated by the stored state,
the save_planned_events fold is the identity. -/
theorem savePlannedFold_noop (eva : Int) :
    ∀ (es : List PlannedEvent) (t : List DBPlannedEvent),
      (∀ e ∈ es, ∃ r, findPlanned e.stop_id t = some r ∧ e.planned_time ≤ r.planned_time) →
      es.foldl (fun t e => upsertPlanned eva e t) t = t := by
  intro es
  induction es with
  | nil => intro t _; rfl
  | cons f rest ih =>
    intro t h
    obtain ⟨r, hr, hge⟩ := h f (List.mem_cons_self f rest)
    have hup : upsertPlanned eva f t = t :=
      upsertPlanned_noop eva f t r hr (not_lt.mpr hge)
    simp only [List.foldl_cons, hup]
    exact ih t (fun e he => h e (List.mem_cons_of_mem f he))

/-- Locating the first row for the event's stop_id after an upsert:
either the first matching row was updated (strictly newer time), kept,
or a fresh row was appended. -/
theorem findPlanned_upsert (eva : Int) (e : PlannedEvent) :
    ∀ (t : List DBPlannedEvent) (r : DBPlannedEvent),
      findPlanned e.stop_id t = some r →
      findPlanned e.stop_id (upsertPlanned eva e t) =
        some (if r.planned_time < e.planned_time then updatePlannedRow r e else r) := by
  intro t
  induction t with
  | nil => intro r h; simp [findPlanned] at h
  | cons a l ih =>
    intro r h
    by_cases ha : a.stop_id = e.stop_id
    · have ha' : (a.stop_id == e.stop_id) = true := by simp [ha]
      simp [findPlanned, List.find?, ha'] at h
      subst h
      by_cases hlt : a.planned_time < e.planned_time
      · simp [upsertPlanned, ha, hlt, findPlanned, List.find?, updatePlannedRow, ha']
      · simp [upsertPlanned, ha, hlt, findPlanned, List.find?, ha']
    · have ha' : (a.stop_id == e.stop_id) = false := by simp [ha]
      simp [findPlanned, List.find?, ha'] at h
      simp [upsertPlanned, ha, findPlanned, List.find?, ha']
      simpa [findPlanned] using ih r h

/-! ### Claim theorems for the database manager -/

/-- C1 counterexample: submitting the identical changed event twice via
save_changed_events stores TWO changed-event rows for that stop_id +
event type, not exactly one — the second application is not discarded. -/
theorem save_changed_events_no_dedup_counterexample :
    ¬ (countChangedObservations "s1" "departure"
        (save_changed_events 0 8002549
          [⟨"s1", "departure", some 100, some "5", none, some "p", some 0, none, none, none, none, none⟩]
          (save_changed_events 0 8002549
            [⟨"s1", "departure", some 100, some "5", none, some "p", some 0, none, none, none, none, none⟩]
            []).1).1 = 1) := by
  decide

/-- C1 amended: save_changed_events appends unconditionally; each
application adds one stored row for the event's observation (stop_id +
event type), whatever is already stored, and returns the number of
events submitted. -/
theorem save_changed_events_always_appends (now eva : Int) (e : ChangedEvent)
    (table : List DBChangedEvent) :
    countChangedObservations e.stop_id e.event_type (save_changed_events now eva [e] table).1
      = countChangedObservations e.stop_id e.event_type table + 1
    ∧ (save_changed_events now eva [e] table).2 = 1 := by
  constructor
  · simp [save_changed_events, countChangedObservations, newChangedRow, List.filter_append]
  · simp [save_changed_events]

/-- C2 counterexample: a stored planned time 10 for stop "s1", then a
later planned fetch reporting time 5 ≠ 10 for "s1": the stored planned
time remains 10, not 5 — earlier corrections are not applied. -/
theorem save_planned_events_lww_counterexample :
    storedPlannedTime "s1"
      (save_planned_events 8002549
        [⟨"s1", "dep", 5, none, none, none, none, none, none, none⟩]
        [⟨"s1", 8002549, "dep", 10, none, none, none, none, none, none, none, none, none⟩]).1
      = some 10
    ∧ (5 : Int) ≠ 10 := by
  constructor
  · rfl
  · decide

/-- C2 amended: when a stored planned row exists for the event's
stop_id, save_planned_events makes the stored planned time T2 exactly
when T2 is strictly later than the stored T1; otherwise (T2 ≤ T1,
including an earlier T2) the stored time remains T1. -/
theorem save_planned_events_update_iff_newer (eva : Int) (e : PlannedEvent)
    (t : List DBPlannedEvent) (r : DBPlannedEvent)
    (hfind : findPlanned e.stop_id t = some r) :
    storedPlannedTime e.stop_id (save_planned_events eva [e] t).1
      = some (if r.planned_time < e.planned_time then e.planned_time else r.planned_time) := by
  have h := findPlanned_upsert eva e t r hfind
  have hne : ([e] : List PlannedEvent) ≠ [] := by simp
  simp only [save_planned_events, if_neg hne, List.foldl_cons, List.foldl_nil, storedPlannedTime]
  rw [h]
  by_cases hlt : r.planned_time < e.planned_time
  · simp [hlt, updatePlannedRow]
  · simp [hlt]

/-- Witness for C2's amended theorem: a strictly newer time 20 replaces
the stored time 10. -/
theorem save_planned_events_update_iff_newer_witness :
    storedPlannedTime "s1"
      (save_planned_events 8002549
        [⟨"s1", "dep", 20, none, none, none, none, none, none, none⟩]
        [⟨"s1", 8002549, "dep", 10, none, none, none, none, none, none, none, none, none⟩]).1
      = some 20 := by
  have h := save_planned_events_update_iff_newer 8002549
    ⟨"s1", "dep", 20, none, none, none, none, none, none, none⟩
    [⟨"s1", 8002549, "dep", 10, none, none, none, none, none, none, none, none, none⟩]
    ⟨"s1", 8002549, "dep", 10, none, none, none, none, none, none, none, none, none⟩
    (by rfl)
  simpa using h

/-- C5 counterexample: the second application of save_planned_events
with the same one-event list reports 1 saved record, not zero. -/
theorem save_planned_events_second_count_counterexample :
    ¬ ((save_planned_events 8002549
        [⟨"s1", "dep", 10, none, none, none, none, none, none, none⟩]
        (save_planned_events 8002549
          [⟨"s1", "dep", 10, none, none, none, none, none, none, none⟩] []).1).2 = 0) := by
  decide

/-- C5 amended: applying save_planned_events twice with the same event
list yields stored state identical to applying it once (the merge is
idempotent on the table), but the second application reports the full
input length (len(events)), not zero. -/
theorem save_planned_events_idempotent (eva : Int) (events : List PlannedEvent)
    (table : List DBPlannedEvent) :
    (save_planned_events eva events (save_planned_events eva events table).1).1
      = (save_planned_events eva events table).1
    ∧ (save_planned_events eva events (save_planned_events eva events table).1).2
      = events.length := by
  by_cases hev : events = []
  · subst hev
    simp [save_planned_events]
  · constructor
    · simp only [save_planned_events, if_neg hev]
      exact savePlannedFold_noop eva events _
        (fun e he => savePlannedFold_all_ge eva events table e he)
    · simp [save_planned_events, hev]

/-! ### Lemmas about retryAux -/

/-- Shifting the exponential-delay sleep list by one step. -/
theorem range_min_delay_shift (maxDelay factor d : ℚ) (mm : Nat) :
    (List.range (mm + 1)).map (fun k => min (d * factor ^ k) maxDelay)
      = min d maxDelay :: (List.range mm).map (fun k => min (d * factor * factor ^ k) maxDelay) := by
  rw [List.range_succ_eq_map, List.map_cons, List.map_map]
  refine congrArg₂ List.cons ?_ ?_
  · norm_num
  · refine List.map_congr_left ?_
    intro k _
    show min (d * factor ^ (k + 1)) maxDelay = min (d * factor * factor ^ k) maxDelay
    refine congrArg (fun x => min x maxDelay) ?_
    rw [pow_succ]
    ring

/-- The retry loop makes at most `fuel` further calls. -/
theorem retryAux_calls_le {α : Type} (outcomes : Nat → Except String α) (maxDelay factor : ℚ) :
    ∀ (fuel callIdx : Nat) (delay : ℚ) (counter : Nat) (sleeps : List ℚ),
      (retryAux outcomes maxDelay factor fuel callIdx delay counter sleeps).calls ≤ callIdx + fuel := by
  intro fuel
  induction fuel with
  | zero => intro callIdx delay counter sleeps; simp [retryAux]
  | succ m ih =>
    intro callIdx delay counter sleeps
    unfold retryAux
    cases houtcome : outcomes callIdx with
    | ok a => simp
    | error e =>
      by_cases hm : m = 0
      · subst hm; simp
      · simp only [if_neg hm]
        calc (retryAux outcomes maxDelay factor m (callIdx + 1) (delay * factor) (counter + 1)
                (min delay maxDelay :: sleeps)).calls ≤ callIdx + 1 + m := ih (callIdx + 1) _ _ _
          _ = callIdx + (m + 1) := by omega

/-- Exact trace of the retry loop when every remaining call fails. -/
theorem retryAux_all_fail {α : Type} (outcomes : Nat → Except String α)
    (maxDelay factor : ℚ) (errs : Nat → String) :
    ∀ (fuel callIdx : Nat) (delay : ℚ) (counter : Nat) (acc : List ℚ),
      0 < fuel →
      (∀ i, callIdx ≤ i → i < callIdx + fuel → outcomes i = Except.error (errs i)) →
      retryAux outcomes maxDelay factor fuel callIdx delay counter acc =
        ⟨RetryOutcome.exhausted (errs (callIdx + fuel - 1)), callIdx + fuel, counter + fuel,
          acc.reverse ++ (List.range (fuel - 1)).map (fun k => min (delay * factor ^ k) maxDelay)⟩ := by
  intro fuel
  induction fuel with
  | zero => intro callIdx delay counter acc h; omega
  | succ m ih =>
    intro callIdx delay counter acc _ herr
    have h0 : outcomes callIdx = Except.error (errs callIdx) :=
      herr callIdx (le_refl _) (by omega)
    unfold retryAux
    rw [h0]
    by_cases hm : m = 0
    · subst hm
      simp
    · simp only [if_neg hm]
      rw [ih (callIdx + 1) (delay * factor) (counter + 1) (min delay maxDelay :: acc)
        (Nat.pos_of_ne_zero hm) (fun i h1 h2 => herr i (by omega) (by omega))]
      have hidx : callIdx + 1 + m - 1 = callIdx + (m + 1) - 1 := by omega
      have hcall : callIdx + 1 + m = callIdx + (m + 1) := by omega
      have hctr : counter + 1 + m = counter + (m + 1) := by omega
      have hsl : (min delay maxDelay :: acc).reverse ++
          (List.range (m - 1)).map (fun k => min (delay * factor * factor ^ k) maxDelay) =
          acc.reverse ++ (List.range (m + 1 - 1)).map (fun k => min (delay * factor ^ k) maxDelay) := by
        obtain ⟨m', rfl⟩ := Nat.exists_eq_succ_of_ne_zero hm
        rw [show m' + 1 + 1 - 1 = m' + 1 from rfl, show m' + 1 - 1 = m' from rfl,
          range_min_delay_shift maxDelay factor delay m']
        simp
      rw [hidx, hcall, hctr, hsl]

/-- Exact trace of the retry loop when the first success is at call
index `j` (all earlier calls fail). -/
theorem retryAux_first_success {α : Type} (outcomes : Nat → Except String α)
    (maxDelay factor : ℚ) (a : α) :
    ∀ (fuel callIdx : Nat) (delay : ℚ) (counter : Nat) (acc : List ℚ) (j : Nat),
      callIdx ≤ j → j < callIdx + fuel →
      (∀ i, callIdx ≤ i → i < j → ∃ e, outcomes i = Except.error e) →
      outcomes j = Except.ok a →
      retryAux outcomes maxDelay factor fuel callIdx delay counter acc =
        ⟨RetryOutcome.success a, j + 1, 0,
          acc.reverse ++ (List.range (j - callIdx)).map (fun k => min (delay * factor ^ k) maxDelay)⟩ := by
  intro fuel
  induction fuel with
  | zero => intro callIdx delay counter acc j h1 h2; omega
  | succ m ih =>
    intro callIdx delay counter acc j hle hlt herr hok
    by_cases hj : j = callIdx
    · subst hj
      unfold retryAux
      rw [hok]
      simp
    · have hcl : callIdx < j := lt_of_le_of_ne hle (fun h => hj h.symm)
      obtain ⟨e, he⟩ := herr callIdx (le_refl _) hcl
      unfold retryAux
      rw [he]
      have hm : m ≠ 0 := by omega
      simp only [if_neg hm]
      rw [ih (callIdx + 1) (delay * factor) (counter + 1) (min delay maxDelay :: acc) j
        (by omega) (by omega) (fun i hi1 hi2 => herr i (by omega) hi2) hok]
      have hsl : (min delay maxDelay :: acc).reverse ++
          (List.range (j - (callIdx + 1))).map (fun k => min (delay * factor * factor ^ k) maxDelay) =
          acc.reverse ++ (List.range (j - callIdx)).map (fun k => min (delay * factor ^ k) maxDelay) := by
        have hj' : j - callIdx = (j - (callIdx + 1)) + 1 := by omega
        rw [hj', range_min_delay_shift maxDelay factor delay (j - (callIdx + 1))]
        simp
      rw [hsl]

/-- C4: for every wrapped operation and a configuration with
`max_attempts = n > 0`: the operation is attempted at most `n` times;
if every attempt fails, the loop raises RetryExhausted wrapping the
last error, having incremented the named consecutive-error counter once
per failure, and the sleep before the k-th retry (k = 1, ..., n-1) is
`min(base_delay * backoff_factor^(k-1), max_delay)`; if the first
success is at attempt j+1, the result is returned and the named counter
is reset to 0. -/
theorem retry_with_backoff_spec {α : Type} (outcomes : Nat → Except String α)
    (n : Nat) (hn : 0 < n) (base maxDelay factor : ℚ) (c₀ : Nat) :
    (retry_with_backoff outcomes (some n) base maxDelay factor c₀).calls ≤ n
    ∧ (∀ errs : Nat → String, (∀ i, i < n → outcomes i = Except.error (errs i)) →
        retry_with_backoff outcomes (some n) base maxDelay factor c₀ =
          ⟨RetryOutcome.exhausted (errs (n - 1)), n, c₀ + n,
            (List.range (n - 1)).map (fun k => min (base * factor ^ k) maxDelay)⟩)
    ∧ (∀ j a, j < n → (∀ i, i < j → ∃ e, outcomes i = Except.error e) →
        outcomes j = Except.ok a →
        retry_with_backoff outcomes (some n) base maxDelay factor c₀ =
          ⟨RetryOutcome.success a, j + 1, 0,
            (List.range j).map (fun k => min (base * factor ^ k) maxDelay)⟩) := by
  have hres : resolveMaxAttempts (some n) = n := by
    simp [resolveMaxAttempts, Nat.pos_iff_ne_zero.mp hn]
  refine ⟨?_, ?_, ?_⟩
  · simpa [retry_with_backoff, hres] using
      retryAux_calls_le outcomes maxDelay factor n 0 base c₀ []
  · intro errs herrs
    simpa [retry_with_backoff, hres] using
      retryAux_all_fail outcomes maxDelay factor errs n 0 base c₀ [] hn
        (fun i _ h2 => herrs i (by omega))
  · intro j a hj herr hok
    simpa [retry_with_backoff, hres] using
      retryAux_first_success outcomes maxDelay factor a n 0 base c₀ [] j
        (Nat.zero_le j) (by omega) (fun i _ h2 => herr i h2) hok

/-- Witness for C4: two attempts, first fails, second succeeds; one
sleep of `min(1 * 2^0, 60) = 1`, counter reset to 0. -/
theorem retry_with_backoff_spec_witness :
    (0 < 2)
    ∧ retry_with_backoff
        (fun i => if i = 0 then (Except.error "boom" : Except String Nat) else Except.ok 42)
        (some 2) 1 60 2 0 = ⟨RetryOutcome.success 42, 2, 0, [1]⟩ := by
  refine ⟨by decide, ?_⟩
  have h := (retry_with_backoff_spec
    (fun i => if i = 0 then (Except.error "boom" : Except String Nat) else Except.ok 42)
    2 (by decide) 1 60 2 0).2.2 1 42 (by decide)
    (fun i hi => ⟨"boom", by interval_cases i; rfl⟩) (by rfl)
  rw [h]
  norm_num [List.range_succ]

/-! ### Claim theorems for StationMonitor and the orchestrator -/

/-- C3 counterexample: a SINGLE failed tick (far fewer than 5
consecutive failures) already puts the monitor into Backoff: from the
fresh state, one cycle at time 0 whose changes fetch fails leaves
`escalation_backoff_until = 60`, which is in the future. -/
theorem monitor_single_failure_backoff_counterexample :
    (StationMonitor.monitor_cycle 0 false true ⟨none, none, none⟩).escalation_backoff_until
      = some 60
    ∧ (0 : Int) < 60 := by
  constructor
  · rfl
  · decide

/-- C3 amended: while `now < escalation_backoff_until` the monitor
cycle performs no planned or changed fetch (the state is returned
untouched, whatever the fetch oracles would do); and backoff is entered
after ANY single failed tick — when not in backoff and the changes
fetch is due and fails, the cycle sets `escalation_backoff_until = now
+ 60`, which lies in the future.  There is no 5-tick escalation
threshold in the scheduler. -/
theorem monitor_backoff_spec (now u : Int) (s : MonitorState) (pOk : Bool) :
    (s.escalation_backoff_until = some u → now < u →
      ∀ cOk pOk₂, StationMonitor.monitor_cycle now cOk pOk₂ s = s)
    ∧ (s.escalation_backoff_until = none →
       StationMonitor.should_fetch_changes now s = true →
        (StationMonitor.monitor_cycle now false pOk s).escalation_backoff_until
          = some (now + 60)
        ∧ now < now + 60) := by
  constructor
  · intro hu hlt cOk pOk₂
    simp [StationMonitor.monitor_cycle, StationMonitor.should_backoff, hu, hlt]
  · intro hnone hdue
    constructor
    · simp only [StationMonitor.monitor_cycle, StationMonitor.should_backoff, hnone,
        StationMonitor.fetch_recent_changes, hdue, Bool.not_true, Bool.false_eq_true,
        if_false]
      simp only [StationMonitor.fetch_planned_events]
      split
      · simp [StationMonitor.trigger_escalation_backoff]
      · split
        · simp [StationMonitor.trigger_escalation_backoff]
        · simp [StationMonitor.trigger_escalation_backoff]
    · omega

/-- Witness for C3's amended theorem: the blocked-cycle part at a state
in backoff, and the single-failure part from the fresh state. -/
theorem monitor_backoff_spec_witness :
    (StationMonitor.monitor_cycle 50 true true ⟨none, none, some 100⟩ = ⟨none, none, some 100⟩)
    ∧ (StationMonitor.monitor_cycle 0 false true ⟨none, none, none⟩).escalation_backoff_until
        = some 60 :=
  ⟨(monitor_backoff_spec 50 100 ⟨none, none, some 100⟩ true).1 rfl (by decide) true true,
   ((monitor_backoff_spec 0 0 ⟨none, none, none⟩ true).2 rfl rfl).1⟩

/-- C7 counterexample: the steady-state planned fetch from the fresh
state at time 0 requests the window `(0, 10800)` — the end is
`now + (LOOKAHEAD_HOURS + 1) hours`, not `now + LOOKAHEAD_HOURS hours =
7200` as the claim's `[now, now + lookahead]` would require. -/
theorem planned_window_counterexample :
    (StationMonitor.fetch_planned_events 0 true ⟨none, none, none⟩).2.2 = some (0, 10800)
    ∧ ¬ ((10800 : Int) = LOOKAHEAD_HOURS * 3600) := by
  constructor
  · rfl
  · decide

/-- C7 amended: a planned fetch is performed (a feed window is
requested) exactly when the station was never fetched or `now -
last_planned_fetch ≥ planned_interval`; the steady-state window is
`[now, now + (lookahead + 1) hours]` (one hour wider than the
lookahead), while the first-run window of StationMonitor.initialize is
`[now - lookbehind hours, now + lookahead hours]`. -/
theorem planned_fetch_window_spec (now : Int) (s : MonitorState) (ok : Bool) :
    ((StationMonitor.fetch_planned_events now ok s).2.2 ≠ none ↔
      (s.last_planned_fetch = none ∨
        ∃ t, s.last_planned_fetch = some t ∧ PLANNED_FETCH_INTERVAL_SECONDS ≤ now - t))
    ∧ (StationMonitor.should_fetch_planned_events now s = true →
        (StationMonitor.fetch_planned_events now ok s).2.2
          = some (now, now + (LOOKAHEAD_HOURS + 1) * 3600))
    ∧ StationMonitor.initializeWindow now
        = (now - LOOKBEHIND_HOURS * 3600, now + LOOKAHEAD_HOURS * 3600) := by
  refine ⟨?_, ?_, rfl⟩
  · cases hlp : s.last_planned_fetch with
    | none =>
      simp [StationMonitor.fetch_planned_events, StationMonitor.should_fetch_planned_events,
        hlp]
      cases ok <;> simp
    | some t =>
      by_cases hdue : PLANNED_FETCH_INTERVAL_SECONDS ≤ now - t
      · simp [StationMonitor.fetch_planned_events, StationMonitor.should_fetch_planned_events,
          hlp, hdue]
        cases ok <;> simp
      · simp [StationMonitor.fetch_planned_events, StationMonitor.should_fetch_planned_events,
          hlp, hdue]
  · intro hdue
    simp only [StationMonitor.fetch_planned_events, hdue, Bool.not_true, Bool.false_eq_true,
      if_false]
    cases ok <;> simp

/-- Witness for C7's amended theorem at the fresh state. -/
theorem planned_fetch_window_spec_witness :
    (StationMonitor.fetch_planned_events 0 true ⟨none, none, none⟩).2.2 = some (0, 10800) := by
  have h := (planned_fetch_window_spec 0 ⟨none, none, none⟩ true).2.1 rfl
  simpa [LOOKAHEAD_HOURS] using h

/-- C10: when neither fetch is due, fetch_recent_changes and
fetch_planned_events return True without fetching or touching
`last_changes_fetch` / `last_planned_fetch` (the state is unchanged and
no window is requested), and a cycle in which both are skipped leaves
the whole state unchanged — in particular it never triggers escalation
backoff. -/
theorem skip_cycle_is_success (now tc tp : Int) (s : MonitorState) (cOk pOk : Bool)
    (hc : s.last_changes_fetch = some tc) (hct : now - tc < FETCH_INTERVAL_SECONDS)
    (hp : s.last_planned_fetch = some tp) (hpt : now - tp < PLANNED_FETCH_INTERVAL_SECONDS) :
    StationMonitor.fetch_recent_changes now cOk s = (true, s)
    ∧ StationMonitor.fetch_planned_events now pOk s = (true, s, none)
    ∧ (s.escalation_backoff_until = none →
        StationMonitor.monitor_cycle now cOk pOk s = s) := by
  have hcd : StationMonitor.should_fetch_changes now s = false := by
    simp [StationMonitor.should_fetch_changes, hc]
    omega
  have hpd : StationMonitor.should_fetch_planned_events now s = false := by
    simp [StationMonitor.should_fetch_planned_events, hp]
    omega
  refine ⟨?_, ?_, ?_⟩
  · simp [StationMonitor.fetch_recent_changes, hcd]
  · simp [StationMonitor.fetch_planned_events, hpd]
  · intro hb
    simp [StationMonitor.monitor_cycle, StationMonitor.should_backoff, hb,
      StationMonitor.fetch_recent_changes, hcd, StationMonitor.fetch_planned_events, hpd]

/-- Witness for C10: both fetches happened 10 seconds ago, no backoff. -/
theorem skip_cycle_is_success_witness :
    StationMonitor.fetch_recent_changes 10 true ⟨some 0, some 0, none⟩
      = (true, ⟨some 0, some 0, none⟩)
    ∧ StationMonitor.fetch_planned_events 10 true ⟨some 0, some 0, none⟩
      = (true, ⟨some 0, some 0, none⟩, none)
    ∧ StationMonitor.monitor_cycle 10 true true ⟨some 0, some 0, none⟩
      = ⟨some 0, some 0, none⟩ := by
  have h := skip_cycle_is_success 10 0 0 ⟨some 0, some 0, none⟩ true true
    rfl (by decide) rfl (by decide)
  exact ⟨h.1, h.2.1, h.2.2 rfl⟩

/-- The station loop of ApplicationOrchestrator.initialize registers
and attempts every station, regardless of individual failures. -/
theorem initStations_registers_all (initOk : Int → Bool) :
    ∀ (stations : List Int) (acc1 acc2 : List Int) (b : Bool),
      stations.foldl
        (fun acc eva => (acc.1 ++ [eva], acc.2.1 ++ [eva], acc.2.2 && initOk eva))
        (acc1, acc2, b)
        = (acc1 ++ stations, acc2 ++ stations,
            stations.foldl (fun x eva => x && initOk eva) b) := by
  intro stations
  induction stations with
  | nil => intro acc1 acc2 b; simp
  | cons eva rest ih =>
    intro acc1 acc2 b
    simp only [List.foldl_cons]
    rw [ih]
    simp

/-- C8: for every configured station list, even when one station's
initialization fails, the orchestrator's initialize still reports
overall success, still runs the initialization of every station, and
still registers every station's monitor (so each is scheduled by the
monitoring loop, which iterates over the registered monitors). -/
theorem orchestrator_initialize_isolation (stations : List Int) (initOk : Int → Bool)
    (s₀ : Int) (_hmem : s₀ ∈ stations) (_hfail : initOk s₀ = false) :
    (ApplicationOrchestrator.initializeAll true stations initOk).success = true
    ∧ (ApplicationOrchestrator.initializeAll true stations initOk).monitors = stations
    ∧ (ApplicationOrchestrator.initializeAll true stations initOk).attempted = stations := by
  simp only [ApplicationOrchestrator.initializeAll, ApplicationOrchestrator.initStations,
    Bool.not_true, Bool.false_eq_true, if_false]
  rw [initStations_registers_all initOk stations [] [] true]
  simp

/-- Witness for C8: station 8002549 fails to initialize, yet both
stations are attempted and registered and initialize reports success. -/
theorem orchestrator_initialize_isolation_witness :
    (ApplicationOrchestrator.initializeAll true [8002549, 8005708]
        (fun eva => eva == 8005708)).success = true
    ∧ (ApplicationOrchestrator.initializeAll true [8002549, 8005708]
        (fun eva => eva == 8005708)).monitors = [8002549, 8005708]
    ∧ (ApplicationOrchestrator.initializeAll true [8002549, 8005708]
        (fun eva => eva == 8005708)).attempted = [8002549, 8005708] :=
  orchestrator_initialize_isolation [8002549, 8005708] (fun eva => eva == 8005708)
    8002549 (by decide) (by decide)

/-! ### Claim theorems for the planned-fetch merge path -/

/-- C6 counterexample: a single stop with the malformed 10-character
planned time "ABCDEFGHIJ" makes the whole planned fetch raise
FetchError — the exception propagates out of the merge path instead of
the single stop being dropped and counted. -/
theorem planned_parse_malformed_raises_counterexample :
    DataFetcher.fetch_planned_events ⟨2026, 1, 1, 0, 0⟩
      [⟨"stop-bad", some ⟨some "ABCDEFGHIJ", none, none, none⟩, none, none, none⟩]
      = Except.error
          "FetchError: Failed to fetch planned events: ValueError: invalid literal for int" := by
  rfl

/-- C6 amended: a stop whose planned time attribute is MISSING is
silently excluded from the merged result (but nothing is counted); a
planned time string SHORTER than 10 characters is not treated as
malformed — the stop is included with `planned_time = now`; and a
malformed planned time string of length ≥ 10 aborts the whole fetch
with FetchError instead of dropping only that stop. -/
theorem planned_parse_malformed_spec (now : PyDateTime) (sid : String)
    (pp pth w spth sw : Option String) (pts : String) (rest : List TimetableStop) :
    (DataFetcher.fetch_planned_events now
        (⟨sid, some ⟨none, pp, pth, w⟩, none, spth, sw⟩ :: rest)
      = DataFetcher.fetch_planned_events now rest)
    ∧ (pts.length < 10 →
        DataFetcher.fetch_planned_events now
            (⟨sid, some ⟨some pts, pp, pth, w⟩, none, spth, sw⟩ :: rest)
          = Except.map
              (fun es => ⟨sid, "dep", now, pp, pyOr pth spth, pyOr w sw⟩ :: es)
              (DataFetcher.fetch_planned_events now rest))
    ∧ (∀ e, parse_db_time pts now = Except.error e →
        DataFetcher.fetch_planned_events now
            (⟨sid, some ⟨some pts, pp, pth, w⟩, none, spth, sw⟩ :: rest)
          = Except.error ("FetchError: Failed to fetch planned events: " ++ e)) := by
  refine ⟨?_, ?_, ?_⟩
  · simp only [DataFetcher.fetch_planned_events, DataFetcher.parseStops,
      DataFetcher.parseStopEvents]
    cases hrest : DataFetcher.parseStops now rest <;>
      simp [hrest, Bind.bind, Except.bind, Pure.pure, Except.pure]
  · intro hshort
    have hparse : parse_db_time pts now = Except.ok now := by
      unfold parse_db_time
      rw [if_pos (Or.inr hshort)]
    simp only [DataFetcher.fetch_planned_events, DataFetcher.parseStops,
      DataFetcher.parseStopEvents, hparse]
    cases hrest : DataFetcher.parseStops now rest <;>
      simp [hrest, Bind.bind, Except.bind, Pure.pure, Except.pure, Except.map]
  · intro e he
    simp only [DataFetcher.fetch_planned_events, DataFetcher.parseStops,
      DataFetcher.parseStopEvents, he]
    simp [Bind.bind, Except.bind]

/-- Witness for C6's amended theorem: a missing planned time is
dropped, the short string "25" yields the current time, and the
non-digit 10-character string "XXXXXXXXXX" aborts the fetch. -/
theorem planned_parse_malformed_spec_witness :
    (DataFetcher.fetch_planned_events ⟨2026, 1, 2, 3, 4⟩
        [⟨"stop-a", some ⟨none, none, none, none⟩, none, none, none⟩]
      = Except.ok [])
    ∧ (DataFetcher.fetch_planned_events ⟨2026, 1, 2, 3, 4⟩
        [⟨"stop-a", some ⟨some "25", none, none, none⟩, none, none, none⟩]
      = Except.ok [⟨"stop-a", "dep", ⟨2026, 1, 2, 3, 4⟩, none, none, none⟩])
    ∧ (DataFetcher.fetch_planned_events ⟨2026, 1, 2, 3, 4⟩
        [⟨"stop-a", some ⟨some "XXXXXXXXXX", none, none, none⟩, none, none, none⟩]
      = Except.error
          "FetchError: Failed to fetch planned events: ValueError: invalid literal for int") := by
  have h := planned_parse_malformed_spec ⟨2026, 1, 2, 3, 4⟩ "stop-a"
    none none none none none "25" []
  have h2 := planned_parse_malformed_spec ⟨2026, 1, 2, 3, 4⟩ "stop-a"
    none none none none none "XXXXXXXXXX" []
  refine ⟨h.1, ?_, h2.2.2 "ValueError: invalid literal for int" (by rfl)⟩
  have hs := h.2.1 (by decide)
  simpa [DataFetcher.fetch_planned_events, DataFetcher.parseStops, Except.map, pyOr] using hs

end LEDPanel
